import Mathlib

/-!
Verification development for the dynamic-transaction-optimizer executor
service (`src/ml/executor.py`).

Embedding conventions:
* Python floats are modelled as exact rationals (`ℚ`); the decision logic
  only compares and scales prices, so the algebraic structure is preserved.
* Effectful reads of the outside world (the RPC node, the wall clock, the
  trained model) become explicit arguments: an exception raised by a remote
  call is modelled by an `Option`/sum constructor at the call site where the
  Python code catches it.
* `make_decision`, `get_live_features`, `execute_transaction_on_chain` and
  the body of `main_loop`'s `while` loop are embedded one-to-one from the
  source; field and function names follow the Python names.
-/

/-- The feature record built by `get_live_features` (executor.py:83-90),
in the exact column layout the model was trained on. -/
structure LiveFeatures where
  avg_gas_in_gwei : ℚ
  hour_of_day : ℚ
  day_of_week : ℚ
  month : ℚ
  rolling_avg_24h : ℚ
  lag_1h : ℚ
deriving DecidableEq

/-- Ambient world state read by `get_live_features`: the latest block's
`base_fee_per_gas` (in wei; `none` models the RPC read raising an
exception) and the clock-derived time fields. -/
structure ChainEnv where
  baseFeePerGas : Option ℕ
  hour : ℚ
  dayOfWeek : ℚ
  month : ℚ

/-- Embedding of `get_live_features` (executor.py:59-95): fetches the latest
base fee, converts wei to gwei, builds the feature row (the rolling-average
and lag columns are the current price, per the placeholder in the source),
and returns `(features, current_gas_gwei)`; any exception is caught and
yields `none` (the Python `(None, None)`). -/
def get_live_features (env : ChainEnv) : Option (LiveFeatures × ℚ) :=
  match env.baseFeePerGas with
  | none => none
  | some fee =>
    let current_gas_gwei : ℚ := (fee : ℚ) / 1e9
    some ({ avg_gas_in_gwei := current_gas_gwei
            hour_of_day := env.hour
            day_of_week := env.dayOfWeek
            month := env.month
            rolling_avg_24h := current_gas_gwei
            lag_1h := current_gas_gwei },
          current_gas_gwei)

/-- Embedding of `make_decision` (executor.py:97-126). `predict` is the
opaque trained model (`model.predict`), `maxGasPrice` is the tracked
request's ceiling in wei (an unsigned chain integer). The source returns
`False` when `get_live_features` fails, otherwise
`is_below_max and is_good_time`: `current_gas < maxGasPrice / 1e9` and
`current_gas < predicted_gas * 1.05`. No deadline or urgency term appears
anywhere in the function. -/
def make_decision (predict : LiveFeatures → ℚ) (maxGasPrice : ℕ)
    (env : ChainEnv) : Bool :=
  match get_live_features env with
  | none => false
  | some (features, current_gas) =>
    let predicted_gas := predict features
    let user_max_gas := (maxGasPrice : ℚ) / 1e9
    let is_below_max := decide (current_gas < user_max_gas)
    let is_good_time := decide (current_gas < predicted_gas * 1.05)
    is_below_max && is_good_time

/-- The outcome of the single fallible dispatch attempt inside
`execute_transaction_on_chain` (executor.py:128-160): either some stage
raised (building, signing, broadcasting, or the 120 s receipt wait timing
out), or a receipt with a status code was obtained. -/
inductive DispatchEvent where
  | buildError
  | signError
  | broadcastError
  | timeout
  | receipt (status : ℕ)
deriving DecidableEq

/-- Embedding of `execute_transaction_on_chain` (executor.py:128-160): the
whole body is wrapped in `try/except`, so every raising stage returns
`False`; a receipt returns `True` exactly when `receipt.status == 1`. -/
def execute_transaction_on_chain (ev : DispatchEvent) : Bool :=
  match ev with
  | .receipt status => if status = 1 then true else false
  | _ => false

/-- The in-memory store of tracked transactions (executor.py:52-54), an
initially empty dictionary; modelled as an association list from
transaction id to the request data retained for it. -/
def tracked_transactions : List (String × ℕ) := []

/-- The zero-address sentinel the loop compares `submitter` against
(executor.py:189). -/
def zeroAddress : String := "0x0000000000000000000000000000000000000000"

/-- One row of the contract's `transactionRequests` mapping, as
destructured by the main loop (executor.py:186-187). -/
structure RemoteRequest where
  submitter : String
  targetContract : String
  data : List ℕ
  maxGasPrice : ℕ
  deadline : ℕ
  executed : Bool
deriving DecidableEq

/-- Result of the `transactionRequests(...).call()` remote read at the top
of the loop body: either the row, or an exception (modelling any raise
inside the per-tick `try`, e.g. an RPC failure or a raising predictor),
which lands in the `except` branch at executor.py:203-204. -/
inductive ReadResult where
  | ok (r : RemoteRequest)
  | raised
deriving DecidableEq

/-- Embedding of one iteration of the `while True` body of `main_loop`
(executor.py:182-208). Inputs are the tracked id (`manually_tracked_tx_id`,
`none` once cleared), the remote read result, the ambient chain state for
`make_decision`, and the dispatch event consumed by
`execute_transaction_on_chain`. Output: the tracked id after the
iteration, and whether the loop `break`s (instead of sleeping and
iterating again). -/
def main_loop_tick (predict : LiveFeatures → ℚ) (tracked : Option String)
    (remote : ReadResult) (env : ChainEnv) (ev : DispatchEvent) :
    Option String × Bool :=
  match tracked with
  | none => (none, false)
  | some txid =>
    match remote with
    | .raised => (some txid, false)
    | .ok r =>
      if r.submitter != zeroAddress && !r.executed then
        if make_decision predict r.maxGasPrice env then
          if execute_transaction_on_chain ev then (none, true)
          else (some txid, false)
        else (some txid, false)
      else (some txid, true)

/-- `make_decision` as it executes in the running process: the ambient
`tracked_transactions` store is in scope, but the source neither reads nor
writes it, so the embedded call pairs the verdict with the untouched
store. -/
def make_decision_st (predict : LiveFeatures → ℚ) (maxGasPrice : ℕ)
    (env : ChainEnv) (store : List (String × ℕ)) :
    Bool × List (String × ℕ) :=
  (make_decision predict maxGasPrice env, store)

/-- The fee fields of the transaction object built at executor.py:136-143. -/
structure TxParams where
  gas : ℕ
  maxFeePerGas : ℕ
  maxPriorityFeePerGas : ℕ
deriving DecidableEq

/-- Embedding of the `build_transaction` call (executor.py:136-143): the
gas limit is the hard-coded constant `200000` — no estimation call occurs
anywhere in the dispatcher — and the fee cap is the latest base fee plus a
fixed 2 gwei tip, with a 2 gwei priority fee. -/
def build_transaction (baseFeePerGas : ℕ) : TxParams :=
  { gas := 200000
    maxFeePerGas := baseFeePerGas + 2000000000
    maxPriorityFeePerGas := 2000000000 }

/-- Hex digit character for a value below 16, lower-case (codes 48-57 for
0-9, 97-102 for a-f) as in standard hex text encodings of chain
identifiers. -/
def hexDigit (n : ℕ) : Char :=
  if n < 10 then Char.ofNat (48 + n) else Char.ofNat (87 + n)

/-- Numeric value of a lower-case hex digit character, by code range;
`none` on any other character. -/
def hexVal (c : Char) : Option ℕ :=
  let n := c.toNat
  if 48 ≤ n ∧ n ≤ 57 then some (n - 48)
  else if 97 ≤ n ∧ n ≤ 102 then some (n - 87)
  else none

/-- Two hex characters per byte, most significant digit first. -/
def encodeChars : List ℕ → List Char
  | [] => []
  | b :: rest => hexDigit (b / 16) :: hexDigit (b % 16) :: encodeChars rest

/-- Inverse of `encodeChars`: consumes characters two at a time; fails on
an odd-length tail or a non-hex character. -/
def decodeChars : List Char → Option (List ℕ)
  | [] => some []
  | [_] => none
  | c1 :: c2 :: rest =>
    match hexVal c1, hexVal c2, decodeChars rest with
    | some hi, some lo, some tail => some ((hi * 16 + lo) :: tail)
    | _, _, _ => none

/-- Hex text encoding of a byte-sequence identifier. -/
def hexEncode (bs : List ℕ) : String :=
  ⟨encodeChars bs⟩

/-- Hex text decoding of an identifier. -/
def hexDecode (s : String) : Option (List ℕ) :=
  decodeChars s.data

/-- Modelled from the spec: the persisted form of one tracked request —
the Store component's `Save`/`Load` are not implemented in the source
(executor.py:52-54 declares only the in-memory `tracked_transactions`
dictionary), so the persisted record follows §6 of the spec: a text
mapping from hex-encoded request id to `{maxCost, deadline}`. The id is a
byte sequence (bytes32 on chain), `maxCost` an unsigned integer ceiling,
`deadline` an absolute timestamp. -/
structure StoredReq where
  id : List ℕ
  maxCost : ℕ
  deadline : ℕ
deriving DecidableEq

/-- Modelled from the spec: `Save(set of TrackedRequest)` — serialise each
tracked request as its hex-encoded id together with the two policy fields,
producing the text-based persisted mapping. -/
def saveStore (S : List StoredReq) : List (String × ℕ × ℕ) :=
  S.map (fun r => (hexEncode r.id, r.maxCost, r.deadline))

/-- Modelled from the spec: `Load()` — `none` models an absent persisted
file and yields the empty tracked set without failing; otherwise each
persisted entry's id is hex-decoded (undecodable entries are dropped
rather than raising). -/
def loadStore (file : Option (List (String × ℕ × ℕ))) : List StoredReq :=
  match file with
  | none => []
  | some entries =>
    entries.filterMap (fun e => (hexDecode e.1).map (fun i => ⟨i, e.2.1, e.2.2⟩))

-- Sanity checks of the decision logic on the spec's scenario table.
example :
    make_decision (fun _ => 45) 50000000000 ⟨some 40000000000, 10, 2, 6⟩ = true := by
  norm_num [make_decision, get_live_features]

example :
    make_decision (fun _ => 40) 50000000000 ⟨some 48000000000, 10, 2, 6⟩ = false := by
  norm_num [make_decision, get_live_features]

example :
    make_decision (fun _ => 40) 50000000000 ⟨some 55000000000, 10, 2, 6⟩ = false := by
  norm_num [make_decision, get_live_features]

/-- C2: whenever the current unit cost is at or above the request's
ceiling (both sides normalized to gwei exactly as the source divides by
1e9), `make_decision` returns Wait (`false`), for every predictor, every
time-of-day context, and — since the function inspects no deadline — for
every deadline and clock value. -/
theorem C2_ceiling_forces_wait (predict : LiveFeatures → ℚ)
    (maxGasPrice fee : ℕ) (hour day month deadline now : ℚ)
    (h : (maxGasPrice : ℚ) / 1e9 ≤ (fee : ℚ) / 1e9) :
    make_decision predict maxGasPrice ⟨some fee, hour, day, month⟩ = false := by
  simp only [make_decision, get_live_features]
  rw [decide_eq_false (not_lt.mpr h)]
  simp

/-- Witness for C2 at the spec's own scenario (maxCost 50 gwei, current
55 gwei, predicted 40 gwei, deadline 300 s away). -/
theorem C2_ceiling_forces_wait_witness :
    make_decision (fun _ => 40) 50000000000 ⟨some 55000000000, 10, 2, 6⟩ = false :=
  C2_ceiling_forces_wait (fun _ => 40) 50000000000 55000000000 10 2 6 300 0
    (by norm_num)

/-- C3: when the current unit cost is under the ceiling and the request is
not urgent (at least 900 s remain to the deadline), the verdict is Execute
exactly when `current < predicted * 1.05`. The deadline hypothesis is
vacuous for the source function, which never reads a deadline. -/
theorem C3_favorability_decides (pred : ℚ) (maxGasPrice fee : ℕ)
    (hour day month deadline now : ℚ)
    (hmax : (fee : ℚ) / 1e9 < (maxGasPrice : ℚ) / 1e9)
    (hfar : 900 ≤ deadline - now) :
    make_decision (fun _ => pred) maxGasPrice ⟨some fee, hour, day, month⟩ = true ↔
      (fee : ℚ) / 1e9 < pred * 1.05 := by
  simp only [make_decision, get_live_features]
  rw [decide_eq_true hmax]
  simp

/-- Witness for C3 at the spec's favourable scenario (maxCost 50 gwei,
current 40 gwei, predicted 45 gwei, deadline 1800 s away). -/
theorem C3_favorability_decides_witness :
    make_decision (fun _ => 45) 50000000000 ⟨some 40000000000, 10, 2, 6⟩ = true ↔
      (40000000000 : ℚ) / 1e9 < 45 * 1.05 :=
  C3_favorability_decides 45 50000000000 40000000000 10 2 6 1800 0
    (by norm_num) (by norm_num)

/-- C1 as stated is false on the source: at the spec's urgency scenario
(maxCost 50 gwei, current 48 gwei so under the ceiling, predicted 40 gwei,
600 s — i.e. less than 900 s — to the deadline) `make_decision` returns
Wait, because the function applies the favorability test unconditionally
and 48 < 40 * 1.05 fails. -/
theorem C1_counterexample :
    ((48000000000 : ℚ) / 1e9 < (50000000000 : ℚ) / 1e9) ∧
    ((600 : ℚ) < 900) ∧
    make_decision (fun _ => 40) 50000000000 ⟨some 48000000000, 10, 2, 6⟩ = false := by
  refine ⟨by norm_num, by norm_num, ?_⟩
  norm_num [make_decision, get_live_features]

/-- C1 amended: under the ceiling, the verdict is Execute iff
`current < predicted * 1.05`, even when fewer than 900 s remain to the
deadline — `make_decision` implements no urgency clause, so deadline
pressure never overrides an unfavourable price. -/
theorem C1_amended_urgency_ignored (pred : ℚ) (maxGasPrice fee : ℕ)
    (hour day month deadline now : ℚ)
    (hmax : (fee : ℚ) / 1e9 < (maxGasPrice : ℚ) / 1e9)
    (hurgent : deadline - now < 900) :
    make_decision (fun _ => pred) maxGasPrice ⟨some fee, hour, day, month⟩ = true ↔
      (fee : ℚ) / 1e9 < pred * 1.05 := by
  simp only [make_decision, get_live_features]
  rw [decide_eq_true hmax]
  simp

/-- Witness for the amended C1 at the urgency scenario: 600 s to the
deadline, current 48 gwei under the 50 gwei ceiling. -/
theorem C1_amended_urgency_ignored_witness :
    make_decision (fun _ => 40) 50000000000 ⟨some 48000000000, 10, 2, 6⟩ = true ↔
      (48000000000 : ℚ) / 1e9 < 40 * 1.05 :=
  C1_amended_urgency_ignored 40 50000000000 48000000000 10 2 6 600 0
    (by norm_num) (by norm_num)

/-- C4: the decision is a pure function of its inputs — the verdict is
independent of the ambient tracked-transactions store, and the store
component of the result is returned unmodified; hence two invocations on
identical inputs yield the identical verdict and mutate nothing. -/
theorem C4_decision_pure_deterministic :
    ∀ (predict : LiveFeatures → ℚ) (maxGasPrice : ℕ) (env : ChainEnv)
      (store store' : List (String × ℕ)),
      (make_decision_st predict maxGasPrice env store).1 =
          (make_decision_st predict maxGasPrice env store').1 ∧
        (make_decision_st predict maxGasPrice env store).2 = store :=
  fun _ _ _ _ _ => ⟨rfl, rfl⟩

/-- C5: when the live-feature fetch the predictor depends on fails
(`base_fee_per_gas` read raises, so `get_live_features` yields `None`),
`make_decision` returns Wait for every request, and a tick evaluated
against that failed snapshot leaves the tracked set exactly as it was. -/
theorem C5_missing_signal_waits :
    (∀ (predict : LiveFeatures → ℚ) (maxGasPrice : ℕ) (hour day month : ℚ),
        make_decision predict maxGasPrice ⟨none, hour, day, month⟩ = false) ∧
    (∀ (predict : LiveFeatures → ℚ) (tracked : Option String)
        (remote : ReadResult) (hour day month : ℚ) (ev : DispatchEvent),
        (main_loop_tick predict tracked remote ⟨none, hour, day, month⟩ ev).1 =
          tracked) := by
  constructor
  · intro predict maxGasPrice hour day month
    rfl
  · intro predict tracked remote hour day month ev
    cases tracked with
    | none => rfl
    | some txid =>
      cases remote with
      | raised => rfl
      | ok r =>
        have hdec : make_decision predict r.maxGasPrice ⟨none, hour, day, month⟩ =
            false := rfl
        simp only [main_loop_tick, hdec]
        split <;> rfl

/-- C6 as stated is false on the source: after a failure receipt
(`receipt.status = 0`, the call reverted), the request is NOT removed from
tracking — `execute_transaction_on_chain` returns `False`, the loop body
leaves `manually_tracked_tx_id` set, does not `break`, and the same id is
re-evaluated next tick. Concretely: with a live request under its ceiling
at a favourable price, a revert receipt leaves the id tracked and the loop
running. -/
theorem C6_counterexample :
    execute_transaction_on_chain (.receipt 0) = false ∧
    main_loop_tick (fun _ => 45) (some "0xc4f55d33")
        (.ok ⟨"0xAbCd", "0xTarget", [], 50000000000, 999999, false⟩)
        ⟨some 40000000000, 10, 2, 6⟩ (.receipt 0) =
      (some "0xc4f55d33", false) := by
  constructor
  · rfl
  · norm_num [main_loop_tick, make_decision, get_live_features, zeroAddress]
    rw [if_neg (by decide), if_neg (by decide)]

/-- C6 amended: a failure receipt (any `status ≠ 1`) is handled exactly
like a timeout or a submission error — the request stays in the tracked
set, the loop does not halt, and the request is therefore retried next
tick; only a success receipt (or a remote row already marked
resolved/cancelled) stops tracking. -/
theorem C6_amended_failure_receipt_retried (predict : LiveFeatures → ℚ)
    (txid : String) (r : RemoteRequest) (env : ChainEnv) (status : ℕ)
    (h1 : r.submitter ≠ zeroAddress) (h2 : r.executed = false)
    (h3 : status ≠ 1) :
    main_loop_tick predict (some txid) (.ok r) env (.receipt status) =
      (some txid, false) := by
  have hexec : execute_transaction_on_chain (.receipt status) = false := by
    simp [execute_transaction_on_chain, h3]
  have hc : (r.submitter != zeroAddress && !r.executed) = true := by
    simp [bne_iff_ne, h1, h2]
  cases hmd : make_decision predict r.maxGasPrice env <;>
    simp [main_loop_tick, hc, hexec, hmd]

/-- Witness for the amended C6: a revert receipt for a live, favourably
priced request leaves the id tracked with the loop still running. -/
theorem C6_amended_failure_receipt_retried_witness :
    main_loop_tick (fun _ => 45) (some "0xc4f55d33")
        (.ok ⟨"0xAbCd", "0xTarget", [], 50000000000, 999999, false⟩)
        ⟨some 40000000000, 10, 2, 6⟩ (.receipt 0) =
      (some "0xc4f55d33", false) :=
  C6_amended_failure_receipt_retried (fun _ => 45) "0xc4f55d33"
    ⟨"0xAbCd", "0xTarget", [], 50000000000, 999999, false⟩
    ⟨some 40000000000, 10, 2, 6⟩ 0 (by decide) rfl (by decide)

/-- C8 as stated is false on the source: there is no estimation stage, and
no multiplier `mult ≥ 1` can relate a per-call estimate to the committed
gas limit, because `build_transaction` commits the constant `200000`
independently of everything (already refuted by instantiating the claimed
identity at estimate 0). -/
theorem C8_counterexample :
    ¬ ∃ mult : ℚ, 1 ≤ mult ∧
      ∀ (estimate baseFee : ℕ),
        ((build_transaction baseFee).gas : ℚ) = (estimate : ℚ) * mult := by
  rintro ⟨mult, hmult, h⟩
  have h0 := h 0 0
  norm_num [build_transaction] at h0

/-- C8 amended: the committed gas limit is the fixed constant `200000` for
every dispatch — it is not derived from any per-call estimate — and any
dispatch-stage failure (build, sign, broadcast, timeout, or revert
receipt) returns `False`, leaving the request tracked and eligible for
retry next tick. -/
theorem C8_amended_fixed_gas_limit :
    (∀ baseFee : ℕ, (build_transaction baseFee).gas = 200000) ∧
    (∀ (predict : LiveFeatures → ℚ) (txid : String) (r : RemoteRequest)
        (env : ChainEnv) (ev : DispatchEvent),
        execute_transaction_on_chain ev = false →
        (main_loop_tick predict (some txid) (.ok r) env ev).1 = some txid) := by
  constructor
  · intro baseFee
    rfl
  · intro predict txid r env ev h
    simp only [main_loop_tick, h]
    split
    · split
      · simp
      · rfl
    · rfl

/-- Witness for the amended C8: a timed-out dispatch leaves the id
tracked. -/
theorem C8_amended_fixed_gas_limit_witness :
    (main_loop_tick (fun _ => 45) (some "0xc4f55d33")
        (.ok ⟨"0xAbCd", "0xTarget", [], 50000000000, 999999, false⟩)
        ⟨some 40000000000, 10, 2, 6⟩ .timeout).1 = some "0xc4f55d33" :=
  C8_amended_fixed_gas_limit.2 (fun _ => 45) "0xc4f55d33"
    ⟨"0xAbCd", "0xTarget", [], 50000000000, 999999, false⟩
    ⟨some 40000000000, 10, 2, 6⟩ .timeout rfl

/-- C9: every transient failure is contained and the loop proceeds to the
next sleep-and-iterate step (the `break` flag stays `false` and the
embedded tick, being a total function, never raises): (i) a raise caught
by the per-tick `try` (remote read or predictor failure) leaves the
tracked set unchanged; (ii) a live-feature fetch failure yields Wait and
an unchanged set; (iii) any failing dispatch stage (estimation is absent,
so build, sign, broadcast, timeout, revert) keeps the loop running. -/
theorem C9_transient_failures_contained :
    (∀ (predict : LiveFeatures → ℚ) (tracked : Option String) (env : ChainEnv)
        (ev : DispatchEvent),
        main_loop_tick predict tracked .raised env ev = (tracked, false)) ∧
    (∀ (predict : LiveFeatures → ℚ) (txid : String) (r : RemoteRequest)
        (hour day month : ℚ) (ev : DispatchEvent),
        r.submitter ≠ zeroAddress → r.executed = false →
        main_loop_tick predict (some txid) (.ok r) ⟨none, hour, day, month⟩ ev =
          (some txid, false)) ∧
    (∀ (predict : LiveFeatures → ℚ) (txid : String) (r : RemoteRequest)
        (env : ChainEnv) (ev : DispatchEvent),
        r.submitter ≠ zeroAddress → r.executed = false →
        execute_transaction_on_chain ev = false →
        (main_loop_tick predict (some txid) (.ok r) env ev).2 = false) := by
  refine ⟨?_, ?_, ?_⟩
  · intro predict tracked env ev
    cases tracked <;> rfl
  · intro predict txid r hour day month ev h1 h2
    have hc : (r.submitter != zeroAddress && !r.executed) = true := by
      simp [bne_iff_ne, h1, h2]
    have hdec : make_decision predict r.maxGasPrice ⟨none, hour, day, month⟩ =
        false := rfl
    simp [main_loop_tick, hc, hdec]
  · intro predict txid r env ev h1 h2 h3
    have hc : (r.submitter != zeroAddress && !r.executed) = true := by
      simp [bne_iff_ne, h1, h2]
    cases hmd : make_decision predict r.maxGasPrice env <;>
      simp [main_loop_tick, hc, hmd, h3]

/-- Witness for C9: a tick whose live-feature fetch failed, on a live
request, waits and keeps the id tracked with the loop running. -/
theorem C9_transient_failures_contained_witness :
    main_loop_tick (fun _ => 45) (some "0xc4f55d33")
        (.ok ⟨"0xAbCd", "0xTarget", [], 50000000000, 999999, false⟩)
        ⟨none, 10, 2, 6⟩ .timeout = (some "0xc4f55d33", false) :=
  C9_transient_failures_contained.2.1 (fun _ => 45) "0xc4f55d33"
    ⟨"0xAbCd", "0xTarget", [], 50000000000, 999999, false⟩
    10 2 6 .timeout (by decide) rfl

/-- C10: `execute_transaction_on_chain` is total over its stage outcomes —
for every event it returns a Boolean, `true` exactly on a status-1
receipt; every failure (build, sign, broadcast, timeout, or a revert
receipt) is mapped to `false`, indistinguishable from an on-chain
revert. -/
theorem C10_dispatch_total_over_errors :
    ∀ ev : DispatchEvent,
      execute_transaction_on_chain ev = true ↔ ev = DispatchEvent.receipt 1 := by
  intro ev
  rcases ev with _ | _ | _ | _ | status <;>
    simp [execute_transaction_on_chain]

/-- `hexVal` inverts `hexDigit` on every value a byte's two digits can
take. -/
theorem hexVal_hexDigit : ∀ n < 16, hexVal (hexDigit n) = some n := by
  decide

/-- Decoding inverts encoding on every byte sequence. -/
theorem decodeChars_encodeChars (bs : List ℕ) (h : ∀ b ∈ bs, b < 256) :
    decodeChars (encodeChars bs) = some bs := by
  induction bs with
  | nil => rfl
  | cons b rest ih =>
    have hb : b < 256 := h b (by simp)
    have h1 : hexVal (hexDigit (b / 16)) = some (b / 16) :=
      hexVal_hexDigit _ (by omega)
    have h2 : hexVal (hexDigit (b % 16)) = some (b % 16) :=
      hexVal_hexDigit _ (by omega)
    have ih' := ih (fun x hx => h x (by simp [hx]))
    simp [encodeChars, decodeChars, h1, h2, ih']
    omega

/-- C7: the store round-trips — saving any tracked set whose ids are byte
sequences (in particular full-width 32-byte identifiers) and loading the
persisted text mapping returns the same set — and loading with no prior
persisted state yields the empty set without failing. -/
theorem C7_store_round_trip :
    (∀ S : List StoredReq, (∀ r ∈ S, ∀ b ∈ r.id, b < 256) →
        loadStore (some (saveStore S)) = S) ∧
    loadStore none = [] := by
  constructor
  · intro S h
    induction S with
    | nil => rfl
    | cons r rest ih =>
      have hr : hexDecode (hexEncode r.id) = some r.id := by
        simpa [hexDecode, hexEncode] using
          decodeChars_encodeChars r.id (h r (by simp))
      have ih' := ih (fun r' hmem => h r' (by simp [hmem]))
      simp only [saveStore, List.map_cons, loadStore, List.filterMap_cons, hr,
        Option.map_some'] at ih' ⊢
      rw [ih']
  · rfl

/-- Witness for C7: a singleton tracked set whose id is the full-width
32-byte identifier from the source's example transaction round-trips. -/
theorem C7_store_round_trip_witness :
    loadStore (some (saveStore
        [⟨[0xc4, 0xf5, 0x5d, 0x33, 0xdf, 0x64, 0xff, 0xba,
           0x4a, 0xf5, 0x21, 0x53, 0xee, 0xc2, 0xef, 0x3a,
           0xf9, 0x3a, 0x2c, 0x7a, 0xc5, 0xaa, 0xba, 0xf2,
           0xd4, 0x01, 0xb7, 0xf1, 0x42, 0x10, 0x0c, 0x76],
          50000000000, 1767225600⟩])) =
      [⟨[0xc4, 0xf5, 0x5d, 0x33, 0xdf, 0x64, 0xff, 0xba,
         0x4a, 0xf5, 0x21, 0x53, 0xee, 0xc2, 0xef, 0x3a,
         0xf9, 0x3a, 0x2c, 0x7a, 0xc5, 0xaa, 0xba, 0xf2,
         0xd4, 0x01, 0xb7, 0xf1, 0x42, 0x10, 0x0c, 0x76],
        50000000000, 1767225600⟩] :=
  C7_store_round_trip.1
    [⟨[0xc4, 0xf5, 0x5d, 0x33, 0xdf, 0x64, 0xff, 0xba,
       0x4a, 0xf5, 0x21, 0x53, 0xee, 0xc2, 0xef, 0x3a,
       0xf9, 0x3a, 0x2c, 0x7a, 0xc5, 0xaa, 0xba, 0xf2,
       0xd4, 0x01, 0xb7, 0xf1, 0x42, 0x10, 0x0c, 0x76],
      50000000000, 1767225600⟩] (by decide)
